import Mathlib

/-!
Shallow embedding of the chart-rendering / GCS-upload core of the
census_query_agent repository
(`src/adk_project/census_query_agent/visualization.py` and
`src/adk_project/census_query_agent/agent.py`).

External effects are made explicit parameters:
  * the matplotlib/seaborn rasterizer is an abstract `savefig` function
    from the plot specification the code builds to PNG bytes;
  * the GCS client's blob upload is a boolean `uploadOk` (the call either
    succeeds or raises);
  * `blob.generate_signed_url` is an `Option String` (`some url` on
    success, `none` when it raises, which the code catches);
  * `uuid.uuid4()` is a natural-number parameter holding the drawn
    128-bit value.
Python exceptions that propagate are modelled by `Option` results.
-/

namespace CensusViz

/-! ## Scalar values and rows (the list-of-dicts / DataFrame view) -/

/-- A scalar cell value in a result row: the rows fed to the tool are
JSON-like records with string or numeric fields. -/
inductive Value where
  | vInt (n : Int)
  | vStr (s : String)
deriving DecidableEq, Repr

/-- A record: mapping from column name to scalar value, as an association
list (Python dict with string keys). -/
abbrev Row := List (String × Value)

/-- Look up a field of a row by column name (first binding wins, as in a
Python dict where keys are unique). -/
def rowGet (r : Row) (k : String) : Option Value :=
  (r.find? (fun p => p.1 = k)).map (fun p => p.2)

/-- `x in df.columns` for a DataFrame built from `rows`: the columns are
the union of the records' keys. -/
def hasColumn (rows : List Row) (x : String) : Bool :=
  rows.any (fun r => r.any (fun p => p.1 = x))

/-! ## Base64, as CPython's `binascii` implements it

`base64.b64encode` (standard alphabet, `=`-padded) and the lax-mode
`base64.b64decode` / `binascii.a2b_base64` decoder that
`upload_to_gcs` relies on: non-alphabet characters are skipped, a `=`
seen with at least two data characters in the current quad counts as
padding and, once the quad is complete, terminates decoding; leftover
data characters at end of input are an error (`binascii.Error:
Incorrect padding`, or the 1-mod-4 error). -/

/-- Value of a character in the standard Base64 alphabet. -/
def b64CharVal (c : Char) : Option Nat :=
  if 'A' ≤ c ∧ c ≤ 'Z' then some (c.toNat - 65)
  else if 'a' ≤ c ∧ c ≤ 'z' then some (c.toNat - 71)
  else if '0' ≤ c ∧ c ≤ '9' then some (c.toNat + 4)
  else if c = '+' then some 62
  else if c = '/' then some 63
  else none

/-- A character is in the Base64 alphabet (not padding). -/
def isB64Char (c : Char) : Bool := (b64CharVal c).isSome

/-- Decoder state of `binascii.a2b_base64`: pending bit value of the
current quad, position inside the quad, padding characters counted,
bytes emitted so far, and whether padding completed the input. -/
structure B64S where
  bits : Nat
  quadPos : Nat
  pads : Nat
  out : List Nat
  done : Bool
deriving DecidableEq, Repr

def b64Init : B64S := ⟨0, 0, 0, [], false⟩

/-- One step of the lax decoder on one input character. -/
def b64Step (s : B64S) (c : Char) : B64S :=
  if s.done then s else
  match b64CharVal c with
  | some v =>
    let bits := s.bits * 64 + v
    if s.quadPos = 3 then
      { s with bits := 0, quadPos := 0,
               out := s.out ++ [bits / 65536, bits / 256 % 256, bits % 256] }
    else { s with bits := bits, quadPos := s.quadPos + 1 }
  | none =>
    if c = '=' then
      if 2 ≤ s.quadPos then
        let pads := s.pads + 1
        if 4 ≤ s.quadPos + pads then
          let extra := if s.quadPos = 2 then [s.bits / 16]
                       else [s.bits / 1024, s.bits / 4 % 256]
          { s with pads := pads, done := true,
                   out := s.out ++ extra }
        else { s with pads := pads }
      else s
    else s

/-- `base64.b64decode` in its default lax mode: `none` models a raised
`binascii.Error`. -/
def pyB64Decode (str : String) : Option (List Nat) :=
  let s := str.data.foldl b64Step b64Init
  if s.done || s.quadPos = 0 then some s.out else none

/-- Character of a 6-bit group in the standard Base64 alphabet. -/
def b64EncChar (n : Nat) : Char :=
  if n < 26 then Char.ofNat (65 + n)
  else if n < 52 then Char.ofNat (71 + n)
  else if n < 62 then Char.ofNat (n - 4)
  else if n = 62 then '+' else '/'

/-- `base64.b64encode` on a byte list, producing the padded character
stream. -/
def b64encodeChars : List Nat → List Char
  | [] => []
  | [a] => [b64EncChar (a / 4), b64EncChar (a % 4 * 16), '=', '=']
  | [a, b] => [b64EncChar (a / 4), b64EncChar (a % 4 * 16 + b / 16),
               b64EncChar (b % 16 * 4), '=']
  | a :: b :: c :: rest =>
    b64EncChar (a / 4) :: b64EncChar (a % 4 * 16 + b / 16) ::
    b64EncChar (b % 16 * 4 + c / 64) :: b64EncChar (c % 64) :: b64encodeChars rest

/-- `base64.b64encode(...).decode('ascii')`. -/
def b64encode (bs : List Nat) : String := ⟨b64encodeChars bs⟩

/-! ## Python string helpers used by `upload_to_gcs` -/

/-- ASCII whitespace as recognised by `str.strip()` (the inputs at issue
are Base64 text and data URIs, which are ASCII). -/
def pySpace (c : Char) : Bool :=
  c = ' ' || c = '\t' || c = '\n' || c = '\x0d' || c = '\x0b' || c = '\x0c'

/-- `str.strip()`. -/
def pyStrip (s : String) : String :=
  ⟨((s.data.dropWhile pySpace).reverse.dropWhile pySpace).reverse⟩

/-- Characters after the first comma: `s.split(",", 1)[1]` when a comma
is present. -/
def afterComma : List Char → List Char
  | [] => []
  | c :: cs => if c = ',' then cs else afterComma cs

/-- The data-URI stripping step of `upload_to_gcs`: if a comma occurs,
keep only what follows the first one, stripped of surrounding
whitespace; otherwise the text is used as-is. -/
def stripDataUri (s : String) : String :=
  if s.data.contains ',' then pyStrip ⟨afterComma s.data⟩ else s

/-! ## The chart renderer (`VisualizationTool.plot_from_dataframe`) -/

/-- The three seaborn plotting calls; `kind` selects one, anything
unrecognised falling through to the bar branch. -/
inductive Strategy where
  | bar
  | line
  | scatter
deriving DecidableEq, Repr

/-- The `if kind == 'bar' / 'line' / 'scatter' / else` chain. -/
def selectStrategy (kind : String) : Strategy :=
  if kind = "bar" then .bar
  else if kind = "line" then .line
  else if kind = "scatter" then .scatter
  else .bar

/-- The y-column value of a row as pandas sees it for `nlargest`:
an integer, or `none` for a missing cell (NaN). The claims only concern
rows whose y field is an integer. -/
def yKey (y : String) (r : Row) : Option Int :=
  match rowGet r y with
  | some (Value.vInt n) => some n
  | _ => none

/-- Descending comparison on the y column, missing values last; ties are
equal both ways, so a stable sort keeps first occurrences first
(pandas `nlargest` keep='first'). -/
def descByY (y : String) (a b : Row) : Bool :=
  match yKey y a, yKey y b with
  | some va, some vb => vb ≤ va
  | some _, none => true
  | none, some _ => false
  | none, none => true

/-- The stable descending sort on the y column underlying
`df.nlargest(n, y)` (pandas keep='first': ties in original order). -/
def sortDescByY (y : String) (rows : List Row) : List Row :=
  List.insertionSort (fun a b => descByY y a b = true) rows

/-- `df.nlargest(n, y)`: the first `n` rows of the stable descending
sort on the y column. -/
def nlargestRows (n : Int) (y : String) (rows : List Row) : List Row :=
  (sortDescByY y rows).take n.toNat

/-- Everything `plot_from_dataframe` hands to matplotlib/seaborn before
rasterizing: the selected strategy, the (possibly top-n-filtered) rows,
axis fields, title, tick rotation and figure size. -/
structure PlotSpec where
  strategy : Strategy
  rows : List Row
  x : String
  y : String
  title : Option String
  rotateXticks : Bool
  figW : Int
  figH : Int
deriving DecidableEq, Repr

/-- The plot specification built by `plot_from_dataframe` from its
arguments: the `top_n`/`x in df.columns` filter, then strategy
selection, title and tick-rotation wiring. -/
def mkPlotSpec (df : List Row) (x y kind : String) (title : Option String)
    (top_n : Option Int) (figW figH : Int) (rotate_xticks : Bool) : PlotSpec :=
  let rows := if top_n.isSome && hasColumn df x
              then nlargestRows (top_n.getD 0) y df else df
  { strategy := selectStrategy kind, rows := rows, x := x, y := y,
    title := title, rotateXticks := rotate_xticks, figW := figW, figH := figH }

/-- The dictionary `plot_from_dataframe` returns. -/
structure RenderResult where
  png_base64 : String
  data_uri : String
  width : Int
  height : Int
  format : String
deriving DecidableEq, Repr

/-- `VisualizationTool.plot_from_dataframe`, with the rasterizer
(`fig.savefig(buf, format='png', dpi=150)` on the configured figure)
abstracted as `savefig`. -/
def plot_from_dataframe (savefig : PlotSpec → List Nat) (df : List Row)
    (x y kind : String) (title : Option String) (top_n : Option Int)
    (figW figH : Int) (rotate_xticks : Bool) : RenderResult :=
  let spec := mkPlotSpec df x y kind title top_n figW figH rotate_xticks
  let png_b64 := b64encode (savefig spec)
  { png_base64 := png_b64,
    data_uri := "data:image/png;base64," ++ png_b64,
    width := figW, height := figH, format := "png" }

/-- `VisualizationTool.plot_from_rows`: `pd.DataFrame(rows)` keeps the
records in order, then delegates. -/
def plot_from_rows (savefig : PlotSpec → List Nat) (rows : List Row)
    (x y kind : String) (title : Option String) (top_n : Option Int)
    (figW figH : Int) (rotate_xticks : Bool) : RenderResult :=
  plot_from_dataframe savefig rows x y kind title top_n figW figH rotate_xticks

/-! ## The object-store publisher (`VisualizationTool.upload_to_gcs`) -/

/-- Lower-case hex digit. -/
def hexDigit (n : Nat) : Char :=
  if n < 10 then Char.ofNat (48 + n) else Char.ofNat (87 + n)

/-- `k` hex digits of `v`, most significant first. -/
def hexChars : Nat → Nat → List Char
  | 0, _ => []
  | k + 1, v => hexChars k (v / 16) ++ [hexDigit (v % 16)]

/-- `uuid.uuid4().hex` for the drawn 128-bit value `r`: 32 lower-case
hex digits. -/
def uuidHex (r : Nat) : String := ⟨hexChars 32 (r % 2 ^ 128)⟩

/-- The text handed to `base64.b64decode`: the (possibly
data-URI-stripped) input with two padding characters appended. -/
def uploadDecodeArg (png_base64 : String) : String :=
  stripDataUri png_base64 ++ "=="

/-- The dictionary `upload_to_gcs` returns. -/
structure UploadResult where
  gcs_uri : String
  url : String
  markdown : String
  blob_name : String
  expiration_minutes : Int
deriving DecidableEq, Repr

/-- `VisualizationTool.upload_to_gcs`. External effects are parameters:
`uploadOk` is whether `blob.upload_from_string` succeeds (it otherwise
raises), `sign` is the outcome of `blob.generate_signed_url` (`none`
when it raises — the code catches that and falls back to an empty url),
and `freshUuid` is the value `uuid.uuid4()` would draw. `none` models a
propagated exception. -/
def upload_to_gcs (uploadOk : Bool) (sign : Option String) (freshUuid : Nat)
    (png_base64 : String) (bucket_name : String) (blob_name : Option String)
    (expiration_minutes : Int) : Option UploadResult :=
  match pyB64Decode (uploadDecodeArg png_base64) with
  | none => none
  | some _png_bytes =>
    let blobName :=
      match blob_name with
      | none => "census_charts/" ++ uuidHex freshUuid ++ ".png"
      | some b => b
    match uploadOk with
    | false => none
    | true =>
      let url := match sign with
                 | some u => u
                 | none => ""
      some { gcs_uri := "gs://" ++ bucket_name ++ "/" ++ blobName,
             url := url,
             markdown := "![Census Chart](" ++ url ++ ")",
             blob_name := blobName,
             expiration_minutes := expiration_minutes }

/-! ## The agent-facing tools (`agent.py`) -/

def GCS_CHART_BUCKET : String := "census_query_tool_project"

/-- `agent.upload_chart_to_gcs`: fixed bucket, empty `blob_name` treated
as absent (`blob_name if blob_name else None`), and the
`expiration_minutes` parameter of `upload_to_gcs` left at its default
of 60. -/
def upload_chart_to_gcs (uploadOk : Bool) (sign : Option String)
    (freshUuid : Nat) (png_base64 : String) (blob_name : String) :
    Option UploadResult :=
  upload_to_gcs uploadOk sign freshUuid png_base64 GCS_CHART_BUCKET
    (if blob_name = "" then none else some blob_name) 60

/-- `agent.create_chart`: delegates to `plot_from_rows` with the default
`top_n=None`, `figsize=(8, 4)` and `rotate_xticks=True`; the title
argument defaults to the empty string, and an empty title is falsy in
`if title:`, so it is modelled as `none` there. -/
def create_chart (savefig : PlotSpec → List Nat) (rows : List Row)
    (x y kind : String) (title : String) : RenderResult :=
  plot_from_rows savefig rows x y kind
    (if title = "" then none else some title) none 8 4 true

/-! ## Theorems -/

/-- C4: for every render call, the returned data_uri field is exactly
the string "data:image/png;base64," concatenated with that same call's
png_base64 field. -/
theorem C4_data_uri_is_b64_with_scheme (savefig : PlotSpec → List Nat)
    (rows : List Row) (x y kind : String) (title : Option String)
    (top_n : Option Int) (figW figH : Int) (rot : Bool) :
    (plot_from_rows savefig rows x y kind title top_n figW figH rot).data_uri =
      "data:image/png;base64," ++
        (plot_from_rows savefig rows x y kind title top_n figW figH rot).png_base64 := by
  rfl

/-- C5: every render call returns the caller-requested figure width and
height unchanged, and the literal format tag "png". -/
theorem C5_result_echoes_figsize_and_png (savefig : PlotSpec → List Nat)
    (rows : List Row) (x y kind : String) (title : Option String)
    (top_n : Option Int) (figW figH : Int) (rot : Bool) :
    (plot_from_rows savefig rows x y kind title top_n figW figH rot).width = figW ∧
    (plot_from_rows savefig rows x y kind title top_n figW figH rot).height = figH ∧
    (plot_from_rows savefig rows x y kind title top_n figW figH rot).format = "png" := by
  exact ⟨rfl, rfl, rfl⟩

/-- C9: every returning upload_to_gcs call reports a gcs_uri equal to
"gs://" ++ bucket_name ++ "/" ++ its resolved blob path. -/
theorem C9_gcs_uri_shape (uploadOk : Bool) (sign : Option String)
    (freshUuid : Nat) (png bucket : String) (blob : Option String)
    (exp : Int) (res : UploadResult)
    (h : upload_to_gcs uploadOk sign freshUuid png bucket blob exp = some res) :
    res.gcs_uri = "gs://" ++ bucket ++ "/" ++ res.blob_name := by
  unfold upload_to_gcs at h
  rcases hd : pyB64Decode (uploadDecodeArg png) with _ | bs
  · rw [hd] at h
    exact absurd h (by simp)
  · rw [hd] at h
    rcases uploadOk with _ | _
    · exact absurd h (by simp)
    · cases h
      rfl

/-- C9 witness at a concrete upload call. -/
theorem C9_gcs_uri_shape_witness :
    ∃ res, upload_to_gcs true (some "https://u") 5 "QUJD" "bkt" (some "p/q.png") 60
        = some res
      ∧ res.gcs_uri = "gs://" ++ "bkt" ++ "/" ++ res.blob_name := by
  refine ⟨_, rfl, ?_⟩
  exact C9_gcs_uri_shape true (some "https://u") 5 "QUJD" "bkt" (some "p/q.png") 60 _ rfl

/-- C1: when signed-URL generation fails, upload_to_gcs still returns a
well-formed result whose url is empty; url is non-empty only when
signing succeeded; and markdown is always "![Census Chart](url)", hence
"![Census Chart]()" on signing failure. -/
theorem C1_signing_failure_degrades_url (uploadOk : Bool)
    (freshUuid : Nat) (png bucket : String) (blob : Option String) (exp : Int)
    (hdec : (pyB64Decode (uploadDecodeArg png)).isSome) (hup : uploadOk = true) :
    (upload_to_gcs uploadOk none freshUuid png bucket blob exp).isSome
    ∧ (∀ res,
        upload_to_gcs uploadOk none freshUuid png bucket blob exp = some res →
          res.url = "" ∧ res.markdown = "![Census Chart]()")
    ∧ (∀ sign res,
        upload_to_gcs uploadOk sign freshUuid png bucket blob exp = some res →
          res.markdown = "![Census Chart](" ++ res.url ++ ")"
          ∧ (res.url ≠ "" → ∃ u, sign = some u ∧ res.url = u)) := by
  subst hup
  rcases hd : pyB64Decode (uploadDecodeArg png) with _ | bs
  · rw [hd] at hdec
    exact absurd hdec (by simp)
  · refine ⟨?_, ?_, ?_⟩
    · unfold upload_to_gcs
      rw [hd]
      rfl
    · intro res h
      unfold upload_to_gcs at h
      rw [hd] at h
      cases h
      exact ⟨rfl, rfl⟩
    · intro sign res h
      unfold upload_to_gcs at h
      rw [hd] at h
      rcases sign with _ | u
      · cases h
        exact ⟨rfl, fun hne => absurd rfl hne⟩
      · cases h
        exact ⟨rfl, fun _ => ⟨u, rfl, rfl⟩⟩

/-- C1 witness at a concrete call with a failing signer. -/
theorem C1_signing_failure_degrades_url_witness :
    (upload_to_gcs true none 0 "QUJD" "b" none 60).isSome
    ∧ ∀ res, upload_to_gcs true none 0 "QUJD" "b" none 60 = some res →
        res.url = "" ∧ res.markdown = "![Census Chart]()" :=
  ⟨(C1_signing_failure_degrades_url true 0 "QUJD" "b" none 60 (by decide) rfl).1,
   (C1_signing_failure_degrades_url true 0 "QUJD" "b" none 60 (by decide) rfl).2.1⟩

/-- Encoding a non-empty byte list yields a non-empty character list. -/
theorem b64encodeChars_ne_nil (bs : List Nat) (h : bs ≠ []) :
    b64encodeChars bs ≠ [] := by
  match bs with
  | [] => exact absurd rfl h
  | [a] => simp [b64encodeChars]
  | [a, b] => simp [b64encodeChars]
  | a :: b :: c :: rest => simp [b64encodeChars]

/-- C10: the agent tool upload_chart_to_gcs passes None through for an
empty blob_name (so the path is auto-generated), and always uses the
fixed bucket "census_query_tool_project" and the default 60-minute URL
expiration. -/
theorem C10_agent_tool_fixed_bucket_and_default (uploadOk : Bool)
    (sign : Option String) (freshUuid : Nat) (png : String) :
    upload_chart_to_gcs uploadOk sign freshUuid png "" =
      upload_to_gcs uploadOk sign freshUuid png GCS_CHART_BUCKET none 60
    ∧ (∀ res, upload_chart_to_gcs uploadOk sign freshUuid png "" = some res →
        res.blob_name = "census_charts/" ++ uuidHex freshUuid ++ ".png")
    ∧ (∀ bn res, upload_chart_to_gcs uploadOk sign freshUuid png bn = some res →
        res.gcs_uri = "gs://census_query_tool_project/" ++ res.blob_name
        ∧ res.expiration_minutes = 60) := by
  refine ⟨rfl, ?_, ?_⟩
  · intro res h
    unfold upload_chart_to_gcs upload_to_gcs at h
    rcases hd : pyB64Decode (uploadDecodeArg png) with _ | bs
    · rw [hd] at h
      exact absurd h (by simp)
    · rw [hd] at h
      rcases uploadOk with _ | _
      · exact absurd h (by simp)
      · cases h
        rfl
  · intro bn res h
    unfold upload_chart_to_gcs upload_to_gcs at h
    rcases hd : pyB64Decode (uploadDecodeArg png) with _ | bs
    · rw [hd] at h
      exact absurd h (by simp)
    · rw [hd] at h
      rcases uploadOk with _ | _
      · exact absurd h (by simp)
      · cases h
        exact ⟨rfl, rfl⟩

/-- C10 witness at a concrete call with empty blob_name. -/
theorem C10_agent_tool_fixed_bucket_and_default_witness :
    ∀ res, upload_chart_to_gcs true none 7 "QUJD" "" = some res →
      res.blob_name = "census_charts/" ++ uuidHex 7 ++ ".png" :=
  (C10_agent_tool_fixed_bucket_and_default true none 7 "QUJD").2.1

/-- C3: render selects the bar strategy for kind "bar", line for
"line", scatter for "scatter", and falls back to bar for any other
kind; for every kind the call succeeds with format "png" and non-empty
Base64 text (given that the rasterizer produces PNG bytes). -/
theorem C3_kind_selection_and_success (savefig : PlotSpec → List Nat)
    (rows : List Row) (x y : String) (title : Option String)
    (top_n : Option Int) (figW figH : Int) (rot : Bool)
    (hsf : ∀ spec, savefig spec ≠ []) :
    selectStrategy "bar" = Strategy.bar
    ∧ selectStrategy "line" = Strategy.line
    ∧ selectStrategy "scatter" = Strategy.scatter
    ∧ (∀ kind, kind ≠ "bar" → kind ≠ "line" → kind ≠ "scatter" →
        selectStrategy kind = Strategy.bar)
    ∧ (∀ kind,
        (mkPlotSpec rows x y kind title top_n figW figH rot).strategy
            = selectStrategy kind
        ∧ (plot_from_rows savefig rows x y kind title top_n figW figH rot).format
            = "png"
        ∧ (plot_from_rows savefig rows x y kind title top_n figW figH rot).png_base64
            ≠ "") := by
  refine ⟨rfl, rfl, rfl, ?_, ?_⟩
  · intro kind h1 h2 h3
    unfold selectStrategy
    rw [if_neg h1, if_neg h2, if_neg h3]
  · intro kind
    refine ⟨rfl, rfl, ?_⟩
    intro heq
    exact b64encodeChars_ne_nil _
      (hsf (mkPlotSpec rows x y kind title top_n figW figH rot))
      (congrArg String.data heq)

/-- C3 witness: a concrete renderer, row set and unrecognized kind. -/
theorem C3_kind_selection_and_success_witness :
    (plot_from_rows (fun _ => [137]) [] "a" "b" "weird" none none 8 4 true).format
        = "png"
    ∧ (plot_from_rows (fun _ => [137]) [] "a" "b" "weird" none none 8 4 true).png_base64
        ≠ ""
    ∧ selectStrategy "weird" = Strategy.bar := by
  have h := C3_kind_selection_and_success (fun _ => [137]) [] "a" "b" none none 8 4 true
    (fun _ => List.cons_ne_nil _ _)
  exact ⟨(h.2.2.2.2 "weird").2.1, (h.2.2.2.2 "weird").2.2,
         h.2.2.2.1 "weird" (by decide) (by decide) (by decide)⟩

/-- A whitespace character is not in the Base64 alphabet. -/
theorem space_not_b64 (c : Char) (h : pySpace c = true) : isB64Char c = false := by
  unfold pySpace at h
  simp only [Bool.or_eq_true, decide_eq_true_eq] at h
  rcases h with ((((h | h) | h) | h) | h) | h <;> subst h <;> decide

/-- A Base64-alphabet character is not whitespace. -/
theorem b64Char_not_space (c : Char) (h : isB64Char c = true) : pySpace c = false := by
  cases hs : pySpace c with
  | false => rfl
  | true => rw [space_not_b64 c hs] at h ; cases h

theorem dropWhile_eq_self_of_none (p : Char → Bool) (l : List Char)
    (h : ∀ c ∈ l, p c = false) : l.dropWhile p = l := by
  cases l with
  | nil => rfl
  | cons a as => simp [List.dropWhile_cons, h a (by simp)]

/-- `str.strip()` is the identity on whitespace-free text. -/
theorem pyStrip_id (s : String) (h : ∀ c ∈ s.data, pySpace c = false) :
    pyStrip s = s := by
  unfold pyStrip
  rw [dropWhile_eq_self_of_none _ _ h,
      dropWhile_eq_self_of_none _ _ (fun c hc => h c (List.mem_reverse.mp hc)),
      List.reverse_reverse]

/-- Splitting at the first comma drops exactly a comma-free head and the
comma. -/
theorem afterComma_no_comma_append (p : List Char) (hp : ∀ c ∈ p, c ≠ ',')
    (l : List Char) : afterComma (p ++ ',' :: l) = l := by
  induction p with
  | nil => simp [afterComma]
  | cons a as ih =>
    simp only [List.cons_append, afterComma]
    rw [if_neg (hp a (by simp))]
    exact ih (fun c hc => hp c (by simp [hc]))

/-- Prefixing Base64 text with the PNG data-URI scheme marker is undone
by the stripping step. -/
theorem stripDataUri_dataUri (X : String) (hb : ∀ c ∈ X.data, isB64Char c = true) :
    stripDataUri ("data:image/png;base64," ++ X) = X := by
  have hdata : ("data:image/png;base64," ++ X).data
      = "data:image/png;base64".data ++ ',' :: X.data := by
    rw [String.data_append]
    rfl
  have hmem : (("data:image/png;base64," ++ X).data).contains ',' = true := by
    rw [hdata]
    exact List.elem_eq_true_of_mem (by simp)
  unfold stripDataUri
  rw [hmem, if_pos rfl, hdata,
      afterComma_no_comma_append _ (by decide) X.data]
  exact pyStrip_id X (fun c hc => b64Char_not_space c (hb c hc))

/-- Comma-free input is not stripped. -/
theorem stripDataUri_id (s : String) (h : s.data.contains ',' = false) :
    stripDataUri s = s := by
  unfold stripDataUri
  rw [h]
  exact if_neg (by simp)

/-- C6: passing a data URI "data:image/png;base64," ++ X to
upload_to_gcs strips everything up to and including the first comma
before decoding, so the decoded byte payload equals the one obtained
from X directly; comma-free input is decoded as-is. -/
theorem C6_data_uri_equivalence (X : String)
    (hb : ∀ c ∈ X.data, isB64Char c = true) :
    uploadDecodeArg ("data:image/png;base64," ++ X) = uploadDecodeArg X
    ∧ pyB64Decode (uploadDecodeArg ("data:image/png;base64," ++ X))
        = pyB64Decode (uploadDecodeArg X)
    ∧ (∀ s : String, s.data.contains ',' = false → uploadDecodeArg s = s ++ "==") := by
  have harg : uploadDecodeArg ("data:image/png;base64," ++ X) = uploadDecodeArg X := by
    unfold uploadDecodeArg
    have hX : stripDataUri X = X := by
      apply stripDataUri_id
      cases hc : X.data.contains ',' with
      | false => rfl
      | true =>
        have : isB64Char ',' = true :=
          hb ',' (List.mem_of_elem_eq_true hc)
        exact absurd this (by decide)
    rw [stripDataUri_dataUri X hb, hX]
  exact ⟨harg, by rw [harg], fun s hs => by
    unfold uploadDecodeArg
    rw [stripDataUri_id s hs]⟩

/-- C6 witness at the concrete Base64 text "QUJD". -/
theorem C6_data_uri_equivalence_witness :
    uploadDecodeArg ("data:image/png;base64," ++ "QUJD") = uploadDecodeArg "QUJD"
    ∧ pyB64Decode (uploadDecodeArg ("data:image/png;base64," ++ "QUJD"))
        = pyB64Decode (uploadDecodeArg "QUJD") :=
  ⟨(C6_data_uri_equivalence "QUJD" (by decide)).1,
   (C6_data_uri_equivalence "QUJD" (by decide)).2.1⟩

/-- One decoder step on an alphabet character: not done, quad position
advances cyclically, padding count untouched. -/
theorem b64Step_alpha (s : B64S) (c : Char) (hd : s.done = false)
    (hb : isB64Char c = true) (hq : s.quadPos < 4) :
    (b64Step s c).done = false
    ∧ (b64Step s c).quadPos = (s.quadPos + 1) % 4
    ∧ (b64Step s c).pads = s.pads := by
  unfold isB64Char at hb
  rcases hv : b64CharVal c with _ | v
  · rw [hv] at hb
    cases hb
  · unfold b64Step
    rw [hd]
    by_cases h3 : s.quadPos = 3
    · simp [hv, h3]
    · simp [hv, h3]
      omega

/-- Running the decoder over alphabet-only text from a live state leaves
it live, with the quad position advanced by the length. -/
theorem foldl_b64Step_alpha (l : List Char) :
    ∀ s : B64S, (∀ c ∈ l, isB64Char c = true) → s.done = false → s.quadPos < 4 →
      (l.foldl b64Step s).done = false
      ∧ (l.foldl b64Step s).quadPos = (s.quadPos + l.length) % 4
      ∧ (l.foldl b64Step s).pads = s.pads := by
  induction l with
  | nil =>
    intro s _ hdone hq
    exact ⟨hdone, by simpa using (Nat.mod_eq_of_lt hq).symm, rfl⟩
  | cons a as ih =>
    intro s hall hdone hq
    have hstep := b64Step_alpha s a hdone (hall a (by simp)) hq
    have hrec := ih (b64Step s a) (fun c hc => hall c (by simp [hc])) hstep.1
      (by rw [hstep.2.1] ; exact Nat.mod_lt _ (by omega))
    refine ⟨hrec.1, ?_, by rw [List.foldl_cons, hrec.2.2, hstep.2.2]⟩
    rw [List.foldl_cons, hrec.2.1, hstep.2.1, Nat.mod_add_mod, List.length_cons]
    omega

/-- With two padding characters appended, alphabet-only text decodes
successfully unless its length is 1 mod 4 (which valid Base64 never
is). -/
theorem pyB64Decode_two_pads (t : String) (hb : ∀ c ∈ t.data, isB64Char c = true)
    (hl : t.data.length % 4 ≠ 1) : (pyB64Decode (t ++ "==")).isSome = true := by
  unfold pyB64Decode
  have hdata : (t ++ "==").data = t.data ++ ['=', '='] := by
    rw [String.data_append]
  rw [hdata, List.foldl_append]
  have h1 := foldl_b64Step_alpha t.data b64Init hb rfl (by decide)
  have hpad : b64CharVal '=' = none := by decide
  rcases hs : t.data.foldl b64Step b64Init with ⟨bits, quadPos, pads, out, done⟩
  rw [hs] at h1
  simp only at h1
  obtain ⟨hdone, hq, hp⟩ := h1
  subst hdone
  have hq4 : quadPos = t.data.length % 4 := by simpa [b64Init] using hq
  have hp0 : pads = 0 := by simpa [b64Init] using hp
  subst hp0
  have hlt : quadPos < 4 := by omega
  interval_cases quadPos
  · simp [List.foldl_cons, List.foldl_nil, b64Step, hpad]
  · omega
  · simp [List.foldl_cons, List.foldl_nil, b64Step, hpad]
  · simp [List.foldl_cons, List.foldl_nil, b64Step, hpad]

/-- Without appended padding the same text fails to decode when its
length is 2 or 3 mod 4 (the binascii Incorrect padding error). -/
theorem pyB64Decode_missing_pad (t : String)
    (hb : ∀ c ∈ t.data, isB64Char c = true)
    (hl : t.data.length % 4 = 2 ∨ t.data.length % 4 = 3) :
    pyB64Decode t = none := by
  unfold pyB64Decode
  have h1 := foldl_b64Step_alpha t.data b64Init hb rfl (by decide)
  rcases hs : t.data.foldl b64Step b64Init with ⟨bits, quadPos, pads, out, done⟩
  rw [hs] at h1
  simp only at h1
  obtain ⟨hdone, hq, _⟩ := h1
  subst hdone
  have hq4 : quadPos = t.data.length % 4 := by simpa [b64Init] using hq
  rcases hl with h | h <;> rw [hq4, h] <;> rfl

/-- C7: upload_to_gcs appends exactly "==" to the (possibly
prefix-stripped) text before decoding, and this makes alphabet-only
text with missing trailing padding decode successfully where the bare
text would fail with a padding error. -/
theorem C7_unconditional_double_padding (s t : String)
    (hb : ∀ c ∈ t.data, isB64Char c = true) (hl : t.data.length % 4 ≠ 1) :
    uploadDecodeArg s = stripDataUri s ++ "=="
    ∧ (pyB64Decode (t ++ "==")).isSome = true
    ∧ (t.data.length % 4 = 2 ∨ t.data.length % 4 = 3 → pyB64Decode t = none) :=
  ⟨rfl, pyB64Decode_two_pads t hb hl, pyB64Decode_missing_pad t hb⟩

/-- C7 witness: "QUI" (length 3, valid Base64 missing one padding
character) fails bare but decodes once "==" is appended. -/
theorem C7_unconditional_double_padding_witness :
    uploadDecodeArg "QUI" = stripDataUri "QUI" ++ "=="
    ∧ (pyB64Decode ("QUI" ++ "==")).isSome = true
    ∧ ((3 : Nat) % 4 = 2 ∨ (3 : Nat) % 4 = 3 → pyB64Decode "QUI" = none) := by
  have h := C7_unconditional_double_padding "QUI" "QUI" (by decide) (by decide)
  exact ⟨h.1, h.2.1, fun _ => h.2.2 (by decide)⟩

/-- Characters allowed in a lower-case hex rendering. -/
def isHexDigit (c : Char) : Bool :=
  ('0' ≤ c ∧ c ≤ '9') || ('a' ≤ c ∧ c ≤ 'f')

theorem hexDigit_mem_hex : ∀ a : Fin 16, isHexDigit (hexDigit a.1) = true := by
  decide

theorem hexDigit_fin_inj : ∀ a b : Fin 16, hexDigit a.1 = hexDigit b.1 → a = b := by
  decide

theorem hexChars_length (k : Nat) : ∀ v, (hexChars k v).length = k := by
  induction k with
  | zero => intro v ; rfl
  | succ k ih => intro v ; simp [hexChars, ih]

theorem hexChars_all_hex (k : Nat) :
    ∀ v, ∀ c ∈ hexChars k v, isHexDigit c = true := by
  induction k with
  | zero => intro v c hc ; cases hc
  | succ k ih =>
    intro v c hc
    simp only [hexChars, List.mem_append, List.mem_singleton] at hc
    rcases hc with hc | hc
    · exact ih _ c hc
    · subst hc
      exact hexDigit_mem_hex ⟨v % 16, Nat.mod_lt _ (by omega)⟩

theorem hexChars_inj (k : Nat) : ∀ v w, v < 16 ^ k → w < 16 ^ k →
    hexChars k v = hexChars k w → v = w := by
  induction k with
  | zero => intro v w hv hw _ ; omega
  | succ k ih =>
    intro v w hv hw h
    simp only [hexChars] at h
    obtain ⟨h1, h2⟩ := List.append_inj h (by rw [hexChars_length, hexChars_length])
    have hd : v % 16 = w % 16 := by
      have hcons : hexDigit (v % 16) = hexDigit (w % 16) := by
        simpa using h2
      have := hexDigit_fin_inj ⟨v % 16, Nat.mod_lt _ (by omega)⟩
        ⟨w % 16, Nat.mod_lt _ (by omega)⟩ hcons
      simpa using congrArg Fin.val this
    have hq : v / 16 = w / 16 := by
      apply ih
      · rw [Nat.div_lt_iff_lt_mul (by omega)]
        rw [Nat.pow_succ] at hv
        exact hv
      · rw [Nat.div_lt_iff_lt_mul (by omega)]
        rw [Nat.pow_succ] at hw
        exact hw
      · exact h1
    omega

/-- Distinct drawn 128-bit values yield distinct uuid hex strings. -/
theorem uuidHex_inj (r1 r2 : Nat) (hr : r1 % 2 ^ 128 ≠ r2 % 2 ^ 128) :
    uuidHex r1 ≠ uuidHex r2 := by
  intro h
  apply hr
  have hpow : (16 : Nat) ^ 32 = 2 ^ 128 := by norm_num
  apply hexChars_inj 32 _ _ (by rw [hpow] ; exact Nat.mod_lt _ (by positivity))
    (by rw [hpow] ; exact Nat.mod_lt _ (by positivity))
  exact congrArg String.data h

/-- C8 counterexample: the claim that two distinct publish calls can
never generate the same auto path fails when both calls draw the same
uuid value (which the code does not preclude): here two calls with
different buckets produce equal blob paths. -/
theorem C8_counterexample_same_draw :
    ∃ res1 res2,
      upload_to_gcs true none 0 "QUJD" "bucket1" none 60 = some res1
      ∧ upload_to_gcs true none 0 "QUJD" "bucket2" none 60 = some res2
      ∧ res1.blob_name = res2.blob_name := by
  exact ⟨_, _, rfl, rfl, rfl⟩

/-- C8 (amended): an absent blob path is auto-generated as
"census_charts/<32 lower-case hex chars>.png" from the drawn 128-bit
value, and two calls whose drawn values differ generate distinct
paths. -/
theorem C8_auto_path_shape_and_freshness (sign1 sign2 : Option String)
    (r1 r2 : Nat) (png1 png2 bucket1 bucket2 : String) (e1 e2 : Int)
    (res1 res2 : UploadResult)
    (h1 : upload_to_gcs true sign1 r1 png1 bucket1 none e1 = some res1)
    (h2 : upload_to_gcs true sign2 r2 png2 bucket2 none e2 = some res2)
    (hr : r1 % 2 ^ 128 ≠ r2 % 2 ^ 128) :
    res1.blob_name = "census_charts/" ++ uuidHex r1 ++ ".png"
    ∧ (uuidHex r1).length = 32
    ∧ (∀ c ∈ (uuidHex r1).data, isHexDigit c = true)
    ∧ res1.blob_name ≠ res2.blob_name := by
  have hb1 : res1.blob_name = "census_charts/" ++ uuidHex r1 ++ ".png" := by
    unfold upload_to_gcs at h1
    rcases hd : pyB64Decode (uploadDecodeArg png1) with _ | bs
    · rw [hd] at h1
      exact absurd h1 (by simp)
    · rw [hd] at h1
      cases h1
      rfl
  have hb2 : res2.blob_name = "census_charts/" ++ uuidHex r2 ++ ".png" := by
    unfold upload_to_gcs at h2
    rcases hd : pyB64Decode (uploadDecodeArg png2) with _ | bs
    · rw [hd] at h2
      exact absurd h2 (by simp)
    · rw [hd] at h2
      cases h2
      rfl
  refine ⟨hb1, ?_, ?_, ?_⟩
  · show (uuidHex r1).data.length = 32
    exact hexChars_length 32 _
  · exact fun c hc => hexChars_all_hex 32 _ c hc
  · rw [hb1, hb2]
    intro heq
    apply uuidHex_inj r1 r2 hr
    have hdat := congrArg String.data heq
    simp only [String.data_append] at hdat
    have h3 := List.append_cancel_right hdat
    have h4 := List.append_cancel_left h3
    exact congrArg String.mk h4

/-- C8 witness: two concrete calls with distinct drawn values. -/
theorem C8_auto_path_shape_and_freshness_witness :
    ∃ res1 res2,
      upload_to_gcs true none 0 "QUJD" "b" none 60 = some res1
      ∧ upload_to_gcs true none 1 "QUJD" "b" none 60 = some res2
      ∧ res1.blob_name = "census_charts/" ++ uuidHex 0 ++ ".png"
      ∧ res1.blob_name ≠ res2.blob_name := by
  refine ⟨_, _, rfl, rfl, ?_, ?_⟩
  · exact (C8_auto_path_shape_and_freshness none none 0 1 "QUJD" "QUJD" "b" "b"
      60 60 _ _ rfl rfl (by norm_num)).1
  · exact (C8_auto_path_shape_and_freshness none none 0 1 "QUJD" "QUJD" "b" "b"
      60 60 _ _ rfl rfl (by norm_num)).2.2.2

/-- The descending-by-y comparison is total. -/
theorem descByY_total (y : String) (a b : Row) :
    descByY y a b = true ∨ descByY y b a = true := by
  unfold descByY
  rcases yKey y a with _ | va <;> rcases yKey y b with _ | vb <;> simp
  omega

/-- The descending-by-y comparison is transitive. -/
theorem descByY_trans (y : String) (a b c : Row) (h1 : descByY y a b = true)
    (h2 : descByY y b c = true) : descByY y a c = true := by
  unfold descByY at h1 h2 ⊢
  rcases hA : yKey y a with _ | va <;> rcases hB : yKey y b with _ | vb <;>
    rcases hC : yKey y c with _ | vc <;> simp_all
  omega

/-- The stable descending sort is a permutation of the input. -/
theorem sortDescByY_perm (y : String) (rows : List Row) :
    List.Perm (sortDescByY y rows) rows :=
  List.perm_insertionSort _ rows

/-- The stable descending sort is pairwise descending on the y
column. -/
theorem sortDescByY_sorted (y : String) (rows : List Row) :
    (sortDescByY y rows).Pairwise (fun a b => descByY y a b = true) := by
  haveI : IsTotal Row (fun a b => descByY y a b = true) := ⟨descByY_total y⟩
  haveI : IsTrans Row (fun a b => descByY y a b = true) := ⟨descByY_trans y⟩
  exact List.sorted_insertionSort _ rows

/-- C2: with top_n set and the x field present, rendering is invoked on
exactly the nlargest selection: a y-descending subpermutation of the
rows of size min n |rows| such that every selected row's y value is at
least every unselected row's; in particular the documented two-row
example renders exactly the B row. -/
theorem C2_top_n_renders_largest (rows : List Row) (x y kind : String)
    (title : Option String) (n : Int) (figW figH : Int) (rot : Bool)
    (hx : hasColumn rows x = true) :
    (mkPlotSpec rows x y kind title (some n) figW figH rot).rows
        = nlargestRows n y rows
    ∧ (nlargestRows n y rows).length = min n.toNat rows.length
    ∧ (nlargestRows n y rows).Pairwise (fun a b => descByY y a b = true)
    ∧ (∃ rest, List.Perm (nlargestRows n y rows ++ rest) rows
        ∧ (∀ a ∈ nlargestRows n y rows, ∀ b ∈ rest, descByY y a b = true)
        ∧ (∀ a ∈ nlargestRows n y rows, ∀ b ∈ rest, ∀ va vb : Int,
            yKey y a = some va → yKey y b = some vb → vb ≤ va))
    ∧ (mkPlotSpec [[("area", Value.vStr "A"), ("pct", Value.vInt 10)],
                   [("area", Value.vStr "B"), ("pct", Value.vInt 90)]]
         "area" "pct" "bar" none (some 1) 8 4 true).rows
        = [[("area", Value.vStr "B"), ("pct", Value.vInt 90)]] := by
  have hsplit : nlargestRows n y rows ++ (sortDescByY y rows).drop n.toNat
      = sortDescByY y rows := by
    unfold nlargestRows
    exact List.take_append_drop _ _
  have hpair : (sortDescByY y rows).Pairwise (fun a b => descByY y a b = true) :=
    sortDescByY_sorted y rows
  have hdom : ∀ a ∈ nlargestRows n y rows,
      ∀ b ∈ (sortDescByY y rows).drop n.toNat, descByY y a b = true := by
    rw [← hsplit] at hpair
    exact (List.pairwise_append.mp hpair).2.2
  refine ⟨by simp [mkPlotSpec, hx], ?_, ?_, ?_, by decide⟩
  · unfold nlargestRows
    rw [List.length_take, (sortDescByY_perm y rows).length_eq]
  · exact hpair.sublist (by rw [← hsplit] ; exact List.sublist_append_left _ _)
  · refine ⟨(sortDescByY y rows).drop n.toNat, ?_, hdom, ?_⟩
    · rw [hsplit]
      exact sortDescByY_perm y rows
    · intro a ha b hb va vb hva hvb
      have := hdom a ha b hb
      unfold descByY at this
      rw [hva, hvb] at this
      simpa using this

/-- C2 witness: the documented two-row example. -/
theorem C2_top_n_renders_largest_witness :
    (mkPlotSpec [[("area", Value.vStr "A"), ("pct", Value.vInt 10)],
                 [("area", Value.vStr "B"), ("pct", Value.vInt 90)]]
       "area" "pct" "bar" none (some 1) 8 4 true).rows
      = [[("area", Value.vStr "B"), ("pct", Value.vInt 90)]] :=
  (C2_top_n_renders_largest
    [[("area", Value.vStr "A"), ("pct", Value.vInt 10)],
     [("area", Value.vStr "B"), ("pct", Value.vInt 90)]]
    "area" "pct" "bar" none 1 8 4 true (by decide)).2.2.2.2

end CensusViz
